import Mathlib

/-!
# Verification of the `rusty_v8` build-orchestration script (`src/build.rs`)

This file gives a shallow embedding of the build script's logic as pure Lean
functions and proves the spec's claims about it.  Effects are made explicit:

* environment variables become `Option String` / `Bool` inputs,
* the filesystem becomes a list of existing paths (`List String`),
* subprocess outcomes become explicit data (`ClangProbe`, success booleans),
* the ordered `gn_args` vector becomes a `List String` built by the same
  sequence of appends as the source,
* `main` / `build_v8` control flow becomes a function from an explicit
  `World` to a trace of external actions plus an exit outcome.

Paths are modelled as strings joined with `"/"`; Rust's `{:?}` debug
formatting of a `PathBuf` is modelled as surrounding the path with quotes
(escaping of special characters inside the path is not modelled).
-/

namespace RustyV8

/-- The three `target_os` values distinguished by `build.rs`
(`cfg!(target_os = "windows" / "linux" / "macos")`). -/
inductive Platform where
  | win
  | linux
  | mac
deriving DecidableEq

/-- `fn platform()` in `build.rs`: the platform tag used in the
gn/ninja scratch-directory layout. -/
def platform_str : Platform → String
  | .win => "win"
  | .linux => "linux64"
  | .mac => "mac"

/-! ## Environment Classifier (`fn main`, lines 10–32) -/

/-- The two gate booleans computed by `main`:
first component: `!(is_trybuild || is_cargo_doc | is_rls)` guards `build_v8()`;
second component: `!(is_cargo_doc || is_rls)` guards `print_link_flags()`.
(The source's `|` on `bool` is logical or without short-circuit; the value is
the same as `||`.) -/
def main_gates (is_trybuild is_cargo_doc is_rls : Bool) : Bool × Bool :=
  (!(is_trybuild || (is_cargo_doc || is_rls)), !(is_cargo_doc || is_rls))

/-! ## Link Directive Emitter (`fn print_link_flags`, lines 146–153) -/

/-- `fn print_link_flags`: the ordered list of `cargo:` directive lines it
prints for a given platform. -/
def print_link_flags (p : Platform) : List String :=
  ["cargo:rustc-link-lib=static=rusty_v8"] ++
    (if p = .win then
      ["cargo:rustc-link-lib=dylib=winmm", "cargo:rustc-link-lib=dylib=dbghelp"]
    else [])

/-! ## Build-Tool Acquirer: need check (`fn need_gn_ninja_download`, lines 155–158) -/

/-- The parts of the process environment consulted (or, in the case of
`which("gn")`, available but NOT consulted) by `need_gn_ninja_download`:
whether `which("ninja")` / `which("gn")` would succeed and whether the
`NINJA` / `GN` environment variables are set. -/
structure ToolEnv where
  whichNinjaOk : Bool
  whichGnOk : Bool
  envNinja : Bool
  envGn : Bool
deriving DecidableEq

/-- `fn need_gn_ninja_download`:
`!((which("ninja").is_ok() || env::var_os("NINJA").is_some()) && env::var_os("GN").is_some())`.
Note the source never calls `which("gn")`; `whichGnOk` is unused. -/
def need_gn_ninja_download (e : ToolEnv) : Bool :=
  !((e.whichNinjaOk || e.envNinja) && e.envGn)

/-! ## Toolchain Locator (lines 160–188) -/

/-- The observable result of a successfully launched
`Command::new(clang_path).arg("--version").output()` call: its exit status
(as "was it zero") and its standard output at the granularity the source
observes — `stdoutUtf8 = some s` when the captured bytes decode as UTF-8 to
`s`, and `stdoutUtf8 = none` when they are not valid UTF-8 (in which case
the source's `String::from_utf8(o.stdout).unwrap()` panics). -/
structure ClangProbe where
  exitZero : Bool
  stdoutUtf8 : Option String

/-- `fn is_compatible_clang_version`: the probe outcome is `none` when the
subprocess failed to launch (`output()` returned `Err`) and `some` when it
launched.  In the `Ok` branch the source first runs
`String::from_utf8(o.stdout).unwrap()` — a launched probe with non-UTF-8
stdout panics, aborting the process (modelled as result `none`) — and then
returns `true` unconditionally: the exit status and the decoded version text
are never inspected (the version floors are unused `const`s behind a TODO).
`some b` is a normal return with value `b`. -/
def is_compatible_clang_version (probeOutcome : Option ClangProbe) :
    Option Bool :=
  match probeOutcome with
  | some o =>
      match o.stdoutUtf8 with
      | some _ => some true
      | none => none
  | none => some false

/-- `fn find_compatible_system_clang`: if the `CLANG_BASE_PATH` environment
variable is set, probe `<base>/bin/clang` and return the base path when the
probe is compatible; otherwise fall through to "using Chromiums clang" and
return no path.  `probe` maps the probed binary path to the launch outcome.
The outer `Option` is the panic propagated from
`is_compatible_clang_version`: `none` means the process aborted,
`some (some p)` a returned base path, `some none` a normal "no system
compiler" return. -/
def find_compatible_system_clang (clangBasePathEnv : Option String)
    (probe : String → Option ClangProbe) : Option (Option String) :=
  match clangBasePathEnv with
  | some p =>
      match is_compatible_clang_version (probe (p ++ "/bin/clang")) with
      | some true => some (some p)
      | some false => some none
      | none => none
  | none => some none

/-! ## Build Configuration Assembler (`fn build_v8` lines 54–84, `fn cc_wrapper`) -/

/-- Rust's `format!("{:?}", path)` on a `PathBuf`, as used for
`clang_base_path` and `cc_wrapper` values: the path surrounded by quotes. -/
def rustDebugQuote (s : String) : String :=
  "\"" ++ s ++ "\""

/-- `fn cc_wrapper`: appends `cc_wrapper=<quoted path>` to `gn_args` and, on
Windows only, `treat_warnings_as_errors=false`. -/
def cc_wrapper (p : Platform) (gn_args : List String) (sccache_path : String) :
    List String :=
  let args := gn_args ++ ["cc_wrapper=" ++ rustDebugQuote sccache_path]
  if p = .win then args ++ ["treat_warnings_as_errors=false"] else args

/-- Rust's `str::split_whitespace`: split on whitespace, dropping empty
pieces. -/
def splitWhitespace (s : String) : List String :=
  (s.split Char.isWhitespace).filter (fun t => t ≠ "")

/-- The `gn_args` vector assembled by `build_v8` (lines 54–84), as a function
of: the platform, `cargo_gn::is_debug()`, the result of
`find_compatible_system_clang()`, the path returned by `clang_download()`
(consulted only in the `None` branch), the resolved sccache path (from the
`SCCACHE` variable or `which("sccache")`, `none` when neither), and the
`GN_ARGS` environment variable. -/
def build_v8_gn_args (p : Platform) (isDebug : Bool) (sysClang : Option String)
    (downloadedClang : String) (sccache : Option String)
    (gnArgsEnv : Option String) : List String :=
  let args0 : List String :=
    if isDebug && !(p = .win) then ["is_debug=true"] else ["is_debug=false"]
  let args1 : List String :=
    match sysClang with
    | some base =>
        args0 ++
          ["clang_base_path=" ++ rustDebugQuote base,
           "treat_warnings_as_errors=false",
           "clang_use_chrome_plugins=false"]
    | none => args0 ++ ["clang_base_path=" ++ rustDebugQuote downloadedClang]
  let args2 : List String :=
    match sccache with
    | some sc => cc_wrapper p args1 sc
    | none => args1
  match gnArgsEnv with
  | some s => args2 ++ splitWhitespace s
  | none => args2

/-! ### Per-component segments (for the fixed-order decomposition) -/

/-- Component 1: the debug/release flag (lines 54–58). -/
def debug_flag_args (p : Platform) (isDebug : Bool) : List String :=
  if isDebug && !(p = .win) then ["is_debug=true"] else ["is_debug=false"]

/-- Component 2: the compiler base path and, for a system compiler, the two
compatibility flags (lines 60–70). -/
def clang_args (sysClang : Option String) (downloadedClang : String) :
    List String :=
  match sysClang with
  | some base =>
      ["clang_base_path=" ++ rustDebugQuote base,
       "treat_warnings_as_errors=false",
       "clang_use_chrome_plugins=false"]
  | none => ["clang_base_path=" ++ rustDebugQuote downloadedClang]

/-- Component 3: the compiler-cache flags (lines 72–78 and `cc_wrapper`). -/
def cc_wrapper_args (p : Platform) (sccache : Option String) : List String :=
  match sccache with
  | some sc =>
      ["cc_wrapper=" ++ rustDebugQuote sc] ++
        (if p = .win then ["treat_warnings_as_errors=false"] else [])
  | none => []

/-- Component 4: the `GN_ARGS` free-form override tokens (lines 80–84). -/
def gn_env_args (gnArgsEnv : Option String) : List String :=
  match gnArgsEnv with
  | some s => splitWhitespace s
  | none => []

/-! ## Build-Tool Acquirer (`fn download_gn_ninja_binaries`, lines 109–144)

`download_dir` is `target_dir.join("gn_ninja_binaries")` where `target_dir`
is reached from `OUT_DIR` by three `parent()` steps; we take the resolved
`download_dir` as a string input.  The filesystem is a list of existing
paths; the download script's effect on it is an arbitrary function `eff`. -/

/-- The platform-specific tool directory
`download_dir/gn_ninja_binaries/<platform()>/`. -/
def gn_ninja_tool_dir (p : Platform) (downloadDir : String) : String :=
  downloadDir ++ "/gn_ninja_binaries/" ++ platform_str p ++ "/"

/-- The expected `gn` executable path: `d.join("gn")`, then
`.with_extension("exe")` on Windows. -/
def gn_tool_path (p : Platform) (downloadDir : String) : String :=
  gn_ninja_tool_dir p downloadDir ++ (if p = .win then "gn.exe" else "gn")

/-- The expected `ninja` executable path: `d.join("ninja")`, then
`.with_extension("exe")` on Windows. -/
def ninja_tool_path (p : Platform) (downloadDir : String) : String :=
  gn_ninja_tool_dir p downloadDir ++ (if p = .win then "ninja.exe" else "ninja")

/-- One run of `download_gn_ninja_binaries` over filesystem `fs`:
if either expected executable is missing, invoke the download subprocess
(`python ./tools/gn_ninja_binaries.py --dir <download_dir>`), whose effect on
the filesystem is `eff`; then `assert!` both executables exist.  Returns
`some (downloadInvoked, fs)` on success and `none` when the final asserts
fail (the process aborts).  (`expect`/`assert!(status.success())` failures of
the subprocess itself also abort; they are outcomes with `eff` leaving the
tools absent.)  The source's trailing `assert!`s apply to the post-`if`
filesystem; they are written out in each branch of the existence check
below. -/
def download_gn_ninja_binaries_run (p : Platform) (downloadDir : String)
    (eff : List String → List String) (fs : List String) :
    Option (Bool × List String) :=
  if !(fs.contains (gn_tool_path p downloadDir)) ||
      !(fs.contains (ninja_tool_path p downloadDir)) then
    if (eff fs).contains (gn_tool_path p downloadDir) &&
        (eff fs).contains (ninja_tool_path p downloadDir) then
      some (true, eff fs)
    else none
  else
    if fs.contains (gn_tool_path p downloadDir) &&
        fs.contains (ninja_tool_path p downloadDir) then
      some (false, fs)
    else none

/-! ## `build_v8` and `main` control flow as a trace (lines 10–92) -/

/-- The external actions (subprocess invocations / network downloads)
`build_v8` can perform, in source order of the call sites. -/
inductive Action where
  | downloadGnNinja
  | probeClang
  | downloadClang
  | gnGen
  | ninjaBuild
deriving DecidableEq

/-- The explicit world `build_v8` runs against: the vendored-source check,
the tool environment, the scratch filesystem, subprocess outcomes, and every
environment variable it reads. -/
structure World where
  libcxxPresent : Bool
  tools : ToolEnv
  downloadDir : String
  eff : List String → List String
  fs : List String
  clangBasePathEnv : Option String
  probe : String → Option ClangProbe
  clangDownloadOk : Bool
  downloadedClangPath : String
  envSccache : Option String
  whichSccache : Option String
  gnArgsEnv : Option String
  isDebug : Bool
  platform : Platform
  gnGenOk : Bool
  ninjaBuildOk : Bool

/-- The tail of `build_v8` after the compiler is settled: resolve sccache
(`SCCACHE` variable first, then `which("sccache")`), assemble `gn_args`, run
`cargo_gn::maybe_gen` (with its two `assert!`s) and `cargo_gn::build`. -/
def build_v8_finish (w : World) (tr : List Action) (sysClang : Option String) :
    List Action × Except Nat (List String) :=
  let sccache := w.envSccache.orElse (fun _ => w.whichSccache)
  let args := build_v8_gn_args w.platform w.isDebug sysClang
    w.downloadedClangPath sccache w.gnArgsEnv
  let tr1 := tr ++ [Action.gnGen]
  if w.gnGenOk = false then (tr1, Except.error 101)
  else
    let tr2 := tr1 ++ [Action.ninjaBuild]
    if w.ninjaBuildOk = false then (tr2, Except.error 101)
    else (tr2, Except.ok args)

/-- `fn build_v8`: returns the ordered trace of external actions together
with the outcome — `Except.error c` when the process terminates with nonzero
exit code `c` (`exit(1)` for the missing vendored tree, `101` for a Rust
panic / failed `assert!`), `Except.ok gn_args` on success. -/
def build_v8_sim (w : World) : List Action × Except Nat (List String) :=
  if w.libcxxPresent = false then ([], Except.error 1)
  else
    let acquire : List Action × Bool :=
      if need_gn_ninja_download w.tools then
        match download_gn_ninja_binaries_run w.platform w.downloadDir w.eff w.fs with
        | some (invoked, _) =>
            ((if invoked then [Action.downloadGnNinja] else []), false)
        | none => ([Action.downloadGnNinja], true)
      else ([], false)
    if acquire.2 then (acquire.1, Except.error 101)
    else
      let probed : List Action :=
        match w.clangBasePathEnv with
        | some _ => acquire.1 ++ [Action.probeClang]
        | none => acquire.1
      match find_compatible_system_clang w.clangBasePathEnv w.probe with
      | none => (probed, Except.error 101)
      | some (some p) => build_v8_finish w probed (some p)
      | some none =>
          let tr := probed ++ [Action.downloadClang]
          if w.clangDownloadOk = false then (tr, Except.error 101)
          else build_v8_finish w tr none

/-- A concrete world in which the vendored source tree is absent; all other
inputs are arbitrary representatives. -/
def missingLibcxxWorld : World where
  libcxxPresent := false
  tools := { whichNinjaOk := false, whichGnOk := false,
             envNinja := false, envGn := false }
  downloadDir := "target/debug/gn_ninja_binaries"
  eff := fun fs => fs
  fs := []
  clangBasePathEnv := none
  probe := fun _ => none
  clangDownloadOk := true
  downloadedClangPath := "target/debug/clang"
  envSccache := none
  whichSccache := none
  gnArgsEnv := none
  isDebug := true
  platform := .linux
  gnGenOk := true
  ninjaBuildOk := true

/-! ## Helper lemmas -/

/-- `cc_wrapper` only appends: it returns its input followed by the
cache-integrator segment. -/
lemma cc_wrapper_eq_append (p : Platform) (args : List String) (sc : String) :
    cc_wrapper p args sc = args ++ cc_wrapper_args p (some sc) := by
  unfold cc_wrapper cc_wrapper_args
  cases hp : decide (p = Platform.win) <;> simp_all

/-- The assembled `gn_args` vector is exactly the four component segments
concatenated in order. -/
lemma build_v8_gn_args_eq_segments (p : Platform) (isDebug : Bool)
    (sysClang : Option String) (downloadedClang : String)
    (sccache : Option String) (gnArgsEnv : Option String) :
    build_v8_gn_args p isDebug sysClang downloadedClang sccache gnArgsEnv =
      debug_flag_args p isDebug ++ clang_args sysClang downloadedClang ++
        cc_wrapper_args p sccache ++ gn_env_args gnArgsEnv := by
  unfold build_v8_gn_args debug_flag_args clang_args cc_wrapper_args gn_env_args
  cases sysClang <;> cases sccache <;> cases gnArgsEnv <;>
    simp [cc_wrapper_eq_append, cc_wrapper_args, List.append_assoc]

/-- `(a ++ b).data = a.data ++ b.data` for strings. -/
lemma string_data_append (a b : String) : (a ++ b).data = a.data ++ b.data := by
  cases a
  cases b
  rfl

/-- Two string concatenations are distinct when their left parts differ at a
character position inside both. -/
lemma string_append_ne_append (a b x y : String) (i : Nat)
    (ha : i < a.data.length) (hb : i < b.data.length)
    (hne : a.data[i]? ≠ b.data[i]?) : a ++ x ≠ b ++ y := by
  intro h
  have hd : (a ++ x).data = (b ++ y).data := congrArg String.data h
  rw [string_data_append, string_data_append] at hd
  have hg : (a.data ++ x.data)[i]? = (b.data ++ y.data)[i]? :=
    congrArg (fun l => l[i]?) hd
  rw [List.getElem?_append, List.getElem?_append, if_pos ha, if_pos hb] at hg
  exact hne hg

/-- A string is distinct from a concatenation whose left part differs from it
at a character position inside both. -/
lemma string_ne_append (a b y : String) (i : Nat)
    (ha : i < a.data.length) (hb : i < b.data.length)
    (hne : a.data[i]? ≠ b.data[i]?) : a ≠ b ++ y := by
  intro h
  have h2 : a ++ "" = b ++ y := by
    cases a
    simpa using h
  exact string_append_ne_append a b "" y i ha hb hne h2

/-- A string whose first character is not `'c'` (and which is none of the two
concrete compatibility flags) never occurs in the compiler-path segment. -/
lemma notmem_clang_args (a : String) (hlen : 0 < a.data.length)
    (h0 : a.data[0]? ≠ some 'c') (ht : a ≠ "treat_warnings_as_errors=false")
    (hu : a ≠ "clang_use_chrome_plugins=false") (sys : Option String)
    (dl : String) : a ∉ clang_args sys dl := by
  intro h
  cases sys <;> simp [clang_args] at h
  · exact string_ne_append a "clang_base_path=" _ 0 hlen (by decide) h0 h
  · rcases h with h | h | h
    · exact string_ne_append a "clang_base_path=" _ 0 hlen (by decide) h0 h
    · exact ht h
    · exact hu h

/-- A string whose first character is not `'c'` (and which is not the
concrete Windows sccache flag) never occurs in the cache-integrator
segment. -/
lemma notmem_cc_wrapper_args (a : String) (hlen : 0 < a.data.length)
    (h0 : a.data[0]? ≠ some 'c') (ht : a ≠ "treat_warnings_as_errors=false")
    (p : Platform) (sc : Option String) : a ∉ cc_wrapper_args p sc := by
  intro h
  cases sc <;> simp [cc_wrapper_args] at h
  rcases h with h | h
  · exact string_ne_append a "cc_wrapper=" _ 0 hlen (by decide) h0 h
  · rcases h with ⟨-, h⟩
    exact ht h

/-- A string distinct from both debug-flag tokens never occurs in the
debug-flag segment. -/
lemma notmem_debug_flag_args (a : String) (h1 : a ≠ "is_debug=true")
    (h2 : a ≠ "is_debug=false") (p : Platform) (d : Bool) :
    a ∉ debug_flag_args p d := by
  intro h
  unfold debug_flag_args at h
  split at h <;> simp at h
  · exact h1 h
  · exact h2 h

/-- On a non-Windows platform the debug-flag segment contains
`is_debug=true` exactly when the debug profile is requested. -/
lemma mem_debug_flag_args_iff (p : Platform) (d : Bool) (hp : p ≠ .win) :
    "is_debug=true" ∈ debug_flag_args p d ↔ d = true := by
  cases d <;> simp [debug_flag_args, hp]

/-- If both expected executables are already present, a run of the
Build-Tool Acquirer performs no download and leaves the filesystem
unchanged. -/
lemma download_run_of_present (p : Platform) (dir : String)
    (eff : List String → List String) (fs : List String)
    (hg : fs.contains (gn_tool_path p dir) = true)
    (hn : fs.contains (ninja_tool_path p dir) = true) :
    download_gn_ninja_binaries_run p dir eff fs = some (false, fs) := by
  unfold download_gn_ninja_binaries_run
  rw [hg, hn]
  simp

/-- Any successful run of the Build-Tool Acquirer leaves both expected
executables present (the final `assert!`s). -/
lemma download_run_post (p : Platform) (dir : String)
    (eff : List String → List String) (fs : List String) (invoked : Bool)
    (fs1 : List String)
    (h : download_gn_ninja_binaries_run p dir eff fs = some (invoked, fs1)) :
    fs1.contains (gn_tool_path p dir) = true ∧
      fs1.contains (ninja_tool_path p dir) = true := by
  unfold download_gn_ninja_binaries_run at h
  cases hg : fs.contains (gn_tool_path p dir) <;>
    cases hn : fs.contains (ninja_tool_path p dir) <;>
    cases hge : (eff fs).contains (gn_tool_path p dir) <;>
    cases hne : (eff fs).contains (ninja_tool_path p dir) <;>
    rw [hg, hn, hge, hne] at h <;> simp at h
  all_goals obtain ⟨hi, hf⟩ := h
  all_goals subst hf
  all_goals exact ⟨by assumption, by assumption⟩

/-! ## Claims -/

/-- C1: for every combination of the three skip signals, the full build runs
iff all three are false, and link-directive emission runs iff the
doc-generation and language-server signals are both false, independent of
the trybuild/compile-check signal. -/
theorem claim_C1 : ∀ is_trybuild is_cargo_doc is_rls : Bool,
    ((main_gates is_trybuild is_cargo_doc is_rls).1 = true ↔
      is_trybuild = false ∧ is_cargo_doc = false ∧ is_rls = false) ∧
    ((main_gates is_trybuild is_cargo_doc is_rls).2 = true ↔
      is_cargo_doc = false ∧ is_rls = false) := by
  decide

/-- C8: the Link Directive Emitter always emits exactly one static-library
directive; Windows adds exactly the two dylib directives (`winmm`,
`dbghelp`); the three platform outputs differ only by those two lines. -/
theorem claim_C8 :
    print_link_flags .win =
      print_link_flags .linux ++
        ["cargo:rustc-link-lib=dylib=winmm",
         "cargo:rustc-link-lib=dylib=dbghelp"] ∧
    print_link_flags .linux = print_link_flags .mac ∧
    print_link_flags .mac = ["cargo:rustc-link-lib=static=rusty_v8"] ∧
    (∀ p : Platform,
      (print_link_flags p).count "cargo:rustc-link-lib=static=rusty_v8" = 1) ∧
    (print_link_flags .win).count "cargo:rustc-link-lib=dylib=winmm" = 1 ∧
    (print_link_flags .win).count "cargo:rustc-link-lib=dylib=dbghelp" = 1 := by
  refine ⟨rfl, rfl, rfl, fun p => ?_, by decide, by decide⟩
  cases p <;> decide

/-- C9 counterexample: in an environment where both tools are found on the
search path alone (`which` succeeds for both, neither `NINJA` nor `GN` is
set), the need check still reports that a download is needed — the source
never consults `which("gn")` and requires the `GN` variable. -/
theorem claim_C9_counterexample :
    need_gn_ninja_download
      { whichNinjaOk := true, whichGnOk := true,
        envNinja := false, envGn := false } = true := by
  decide

/-- C9 amended: no download is needed exactly when `ninja` is resolvable
(search path or `NINJA` variable) and the `GN` environment variable is set;
`gn`'s presence on the search path is never consulted. -/
theorem claim_C9_amended : ∀ e : ToolEnv,
    (need_gn_ninja_download e = false ↔
      (e.whichNinjaOk = true ∨ e.envNinja = true) ∧ e.envGn = true) ∧
    (∀ b : Bool,
      need_gn_ninja_download { e with whichGnOk := b } =
        need_gn_ninja_download e) := by
  intro e
  obtain ⟨a, b, c, d⟩ := e
  revert a b c d
  decide

/-- C2 counterexample: the version probe launches (with UTF-8 stdout) but
exits with a nonzero status, yet the Toolchain Locator still returns the
override base path — the source never inspects the exit status inside the
`Ok` branch. -/
theorem claim_C2_counterexample :
    find_compatible_system_clang (some "/opt/llvm")
        (fun _ => some { exitZero := false, stdoutUtf8 := some "" }) =
      some (some "/opt/llvm") := by
  rfl

/-- C2 amended: the Toolchain Locator returns the override base path exactly
when the override is set and the version-probe subprocess launches with
UTF-8-decodable stdout, regardless of its exit status; on a missing binary
or launch error it returns no path without failing the build; a launched
probe whose stdout is not valid UTF-8 makes the `unwrap` panic, aborting the
process instead of returning. -/
theorem claim_C2_amended : ∀ (env : Option String)
    (probe : String → Option ClangProbe) (p : String),
    (find_compatible_system_clang env probe = some (some p) ↔
      env = some p ∧ ∃ o : ClangProbe,
        probe (p ++ "/bin/clang") = some o ∧ o.stdoutUtf8.isSome = true) ∧
    (env = some p → probe (p ++ "/bin/clang") = none →
      find_compatible_system_clang env probe = some none) ∧
    (∀ o : ClangProbe, env = some p → probe (p ++ "/bin/clang") = some o →
      o.stdoutUtf8 = none → find_compatible_system_clang env probe = none) := by
  intro env probe p
  cases env with
  | none => refine ⟨?_, ?_, ?_⟩ <;> simp [find_compatible_system_clang]
  | some q =>
      cases hp : probe (q ++ "/bin/clang") with
      | none =>
          refine ⟨?_, ?_, ?_⟩
          · constructor
            · intro h
              simp [find_compatible_system_clang,
                is_compatible_clang_version, hp] at h
            · rintro ⟨heq, o, ho, -⟩
              obtain rfl : q = p := Option.some.inj heq
              rw [hp] at ho
              cases ho
          · intro heq hnone
            simp [find_compatible_system_clang,
              is_compatible_clang_version, hp]
          · intro o heq hpo hnone
            obtain rfl : q = p := Option.some.inj heq
            rw [hp] at hpo
            cases hpo
      | some o =>
          cases ho : o.stdoutUtf8 with
          | none =>
              refine ⟨?_, ?_, ?_⟩
              · constructor
                · intro h
                  simp [find_compatible_system_clang,
                    is_compatible_clang_version, hp, ho] at h
                · rintro ⟨heq, o2, ho2, hs⟩
                  obtain rfl : q = p := Option.some.inj heq
                  rw [hp] at ho2
                  obtain rfl : o = o2 := Option.some.inj ho2
                  rw [ho] at hs
                  simp at hs
              · intro heq hnone
                obtain rfl : q = p := Option.some.inj heq
                rw [hp] at hnone
                cases hnone
              · intro o2 heq hpo hnone
                simp [find_compatible_system_clang,
                  is_compatible_clang_version, hp, ho]
          | some s =>
              refine ⟨?_, ?_, ?_⟩
              · constructor
                · intro h
                  simp [find_compatible_system_clang,
                    is_compatible_clang_version, hp, ho] at h
                  subst h
                  exact ⟨rfl, o, hp, by rw [ho]; rfl⟩
                · rintro ⟨heq, o2, ho2, hs⟩
                  obtain rfl : q = p := Option.some.inj heq
                  simp [find_compatible_system_clang,
                    is_compatible_clang_version, hp, ho]
              · intro heq hnone
                obtain rfl : q = p := Option.some.inj heq
                rw [hp] at hnone
                cases hnone
              · intro o2 heq hpo hnone
                obtain rfl : q = p := Option.some.inj heq
                rw [hp] at hpo
                obtain rfl : o = o2 := Option.some.inj hpo
                rw [ho] at hnone
                cases hnone

/-- C10: with a system compiler found, a cache tool present and the Windows
platform, the assembled BuildArgs contains `treat_warnings_as_errors=false`
twice — once from the system-compiler compatibility flags and once from the
compiler-cache integrator. -/
theorem claim_C10 :
    (build_v8_gn_args .win false (some "/opt/llvm") "/dl/clang"
        (some "/usr/bin/sccache") none).count
      "treat_warnings_as_errors=false" = 2 := by
  decide

/-- C3: on Windows the assembled BuildArgs always contains `is_debug=false`
(and never `is_debug=true`, absent a free-form override); on non-Windows
platforms it contains `is_debug=true` exactly when the debug profile is
requested; and with no system compiler, no cache tool, Windows and debug
requested, it contains no `cc_wrapper` entry. -/
theorem claim_C3 : ∀ (d : Bool) (sys : Option String) (dl : String)
    (sc : Option String) (g : Option String) (p : Platform),
    "is_debug=false" ∈ build_v8_gn_args .win d sys dl sc g ∧
    "is_debug=true" ∉ build_v8_gn_args .win d sys dl sc none ∧
    (p ≠ .win →
      ("is_debug=true" ∈ build_v8_gn_args p d sys dl sc none ↔ d = true)) ∧
    (∀ r : String,
      ("cc_wrapper=" ++ r) ∉ build_v8_gn_args .win true none dl none none) := by
  intro d sys dl sc g p
  refine ⟨?_, ?_, ?_, ?_⟩
  · rw [build_v8_gn_args_eq_segments]
    simp [debug_flag_args]
  · intro h
    rw [build_v8_gn_args_eq_segments] at h
    rcases List.mem_append.mp h with h123 | h4
    rcases List.mem_append.mp h123 with h12 | h3
    rcases List.mem_append.mp h12 with h1 | h2
    · simp [debug_flag_args] at h1
    · exact notmem_clang_args _ (by decide) (by decide) (by decide) (by decide)
        sys dl h2
    · exact notmem_cc_wrapper_args _ (by decide) (by decide) (by decide)
        .win sc h3
    · simp [gn_env_args] at h4
  · intro hp
    constructor
    · intro h
      rw [build_v8_gn_args_eq_segments] at h
      rcases List.mem_append.mp h with h123 | h4
      rcases List.mem_append.mp h123 with h12 | h3
      rcases List.mem_append.mp h12 with h1 | h2
      · exact (mem_debug_flag_args_iff p d hp).mp h1
      · exact absurd h2 (notmem_clang_args _ (by decide) (by decide)
          (by decide) (by decide) sys dl)
      · exact absurd h3 (notmem_cc_wrapper_args _ (by decide) (by decide)
          (by decide) p sc)
      · simp [gn_env_args] at h4
    · intro hd
      rw [build_v8_gn_args_eq_segments]
      refine List.mem_append.mpr (Or.inl ?_)
      refine List.mem_append.mpr (Or.inl ?_)
      refine List.mem_append.mpr (Or.inl ?_)
      exact (mem_debug_flag_args_iff p d hp).mpr hd
  · intro r h
    rw [build_v8_gn_args_eq_segments] at h
    simp [debug_flag_args, clang_args, cc_wrapper_args, gn_env_args] at h
    rcases h with h | h
    · exact string_ne_append "is_debug=false" "cc_wrapper=" r 0 (by decide)
        (by decide) (by decide) h.symm
    · exact string_append_ne_append "cc_wrapper=" "clang_base_path=" r
        (rustDebugQuote dl) 1 (by decide) (by decide) (by decide) h

/-- C4: with a system compiler found, BuildArgs receives its quoted base
path plus exactly the two compatibility flags; otherwise it receives the
downloaded compiler's quoted base path and neither compatibility flag is
appended in that branch. -/
theorem claim_C4 : ∀ (p : Platform) (d : Bool) (dl : String),
    (∀ (base : String) (sc : Option String) (g : Option String),
      "clang_base_path=" ++ rustDebugQuote base ∈
          build_v8_gn_args p d (some base) dl sc g ∧
        "treat_warnings_as_errors=false" ∈
          build_v8_gn_args p d (some base) dl sc g ∧
        "clang_use_chrome_plugins=false" ∈
          build_v8_gn_args p d (some base) dl sc g) ∧
    (∀ base : String,
      build_v8_gn_args p d (some base) dl none none =
        debug_flag_args p d ++
          ["clang_base_path=" ++ rustDebugQuote base,
           "treat_warnings_as_errors=false",
           "clang_use_chrome_plugins=false"]) ∧
    (build_v8_gn_args p d none dl none none =
      debug_flag_args p d ++ ["clang_base_path=" ++ rustDebugQuote dl]) ∧
    "treat_warnings_as_errors=false" ∉ build_v8_gn_args p d none dl none none ∧
    "clang_use_chrome_plugins=false" ∉
      build_v8_gn_args p d none dl none none := by
  intro p d dl
  refine ⟨?_, ?_, ?_, ?_, ?_⟩
  · intro base sc g
    refine ⟨?_, ?_, ?_⟩ <;>
      · rw [build_v8_gn_args_eq_segments]
        simp [clang_args]
  · intro base
    rw [build_v8_gn_args_eq_segments]
    simp [clang_args, cc_wrapper_args, gn_env_args]
  · rw [build_v8_gn_args_eq_segments]
    simp [clang_args, cc_wrapper_args, gn_env_args]
  · intro h
    rw [build_v8_gn_args_eq_segments] at h
    simp [clang_args, cc_wrapper_args, gn_env_args] at h
    rcases h with h | h
    · exact notmem_debug_flag_args _ (by decide) (by decide) p d h
    · exact string_ne_append "treat_warnings_as_errors=false"
        "clang_base_path=" (rustDebugQuote dl) 0 (by decide) (by decide)
        (by decide) h
  · intro h
    rw [build_v8_gn_args_eq_segments] at h
    simp [clang_args, cc_wrapper_args, gn_env_args] at h
    rcases h with h | h
    · exact notmem_debug_flag_args _ (by decide) (by decide) p d h
    · exact string_ne_append "clang_use_chrome_plugins=false"
        "clang_base_path=" (rustDebugQuote dl) 6 (by decide) (by decide)
        (by decide) h

/-- C5: the assembled BuildArgs is exactly the four component segments in
the fixed order — debug flag, compiler path (with its compatibility flags),
compiler-cache flags, then the whitespace-split `GN_ARGS` tokens — with
nothing removed, reordered or deduplicated (the length is the sum of the
segment lengths). -/
theorem claim_C5 : ∀ (p : Platform) (d : Bool) (sys : Option String)
    (dl : String) (sc : Option String) (g : Option String),
    build_v8_gn_args p d sys dl sc g =
      debug_flag_args p d ++ clang_args sys dl ++ cc_wrapper_args p sc ++
        gn_env_args g ∧
    (∀ s : String, gn_env_args (some s) = splitWhitespace s) ∧
    (build_v8_gn_args p d sys dl sc g).length =
      (debug_flag_args p d).length + (clang_args sys dl).length +
        (cc_wrapper_args p sc).length + (gn_env_args g).length := by
  intro p d sys dl sc g
  refine ⟨build_v8_gn_args_eq_segments p d sys dl sc g, fun s => rfl, ?_⟩
  rw [build_v8_gn_args_eq_segments]
  simp [List.length_append]
  omega

/-- C6: the Build-Tool Acquirer is idempotent — when both executables are
already at their platform-specific subpath (`.exe` suffix on Windows, bare
name otherwise) it invokes no download subprocess, and any completed run
leaves a state in which a second run downloads nothing. -/
theorem claim_C6 : ∀ (p : Platform) (dir : String)
    (eff eff2 : List String → List String) (fs : List String),
    (fs.contains (gn_tool_path p dir) = true →
      fs.contains (ninja_tool_path p dir) = true →
      download_gn_ninja_binaries_run p dir eff fs = some (false, fs)) ∧
    (∀ (invoked : Bool) (fs1 : List String),
      download_gn_ninja_binaries_run p dir eff fs = some (invoked, fs1) →
      download_gn_ninja_binaries_run p dir eff2 fs1 = some (false, fs1)) ∧
    gn_tool_path p dir =
      gn_ninja_tool_dir p dir ++ (if p = .win then "gn.exe" else "gn") ∧
    ninja_tool_path p dir =
      gn_ninja_tool_dir p dir ++
        (if p = .win then "ninja.exe" else "ninja") := by
  intro p dir eff eff2 fs
  refine ⟨download_run_of_present p dir eff fs, ?_, rfl, rfl⟩
  intro invoked fs1 h
  obtain ⟨hg, hn⟩ := download_run_post p dir eff fs invoked fs1 h
  exact download_run_of_present p dir eff2 fs1 hg hn

/-- C7: when the vendored source tree is absent, `build_v8` terminates with
the nonzero exit code 1 having performed no external action (no network
download, no subprocess). -/
theorem claim_C7 : ∀ w : World, w.libcxxPresent = false →
    build_v8_sim w = ([], Except.error 1) ∧ (1 : Nat) ≠ 0 := by
  intro w h
  refine ⟨?_, by decide⟩
  unfold build_v8_sim
  rw [if_pos h]

/-! ## Witnesses -/

/-- Witness for C2 (amended) at concrete environments and probes: a launch
failure returns no path without aborting, and a launched probe with
non-UTF-8 stdout aborts the process. -/
theorem claim_C2_amended_witness :
    find_compatible_system_clang (some "/opt/llvm") (fun _ => none) =
        some none ∧
      find_compatible_system_clang (some "/opt/llvm")
          (fun _ => some { exitZero := true, stdoutUtf8 := none }) = none :=
  ⟨(claim_C2_amended (some "/opt/llvm") (fun _ => none) "/opt/llvm").2.1
      rfl rfl,
    (claim_C2_amended (some "/opt/llvm")
        (fun _ => some { exitZero := true, stdoutUtf8 := none })
        "/opt/llvm").2.2 { exitZero := true, stdoutUtf8 := none } rfl rfl rfl⟩

/-- Witness for C3 at a concrete non-Windows configuration. -/
theorem claim_C3_witness :
    "is_debug=true" ∈
      build_v8_gn_args .linux true none "/dl/clang" none none :=
  ((claim_C3 true none "/dl/clang" none none .linux).2.2.1
    (by decide)).mpr rfl

/-- Witness for C4 at a concrete configuration. -/
theorem claim_C4_witness :
    build_v8_gn_args .linux true (some "/opt/llvm") "/dl/clang" none none =
      debug_flag_args .linux true ++
        ["clang_base_path=" ++ rustDebugQuote "/opt/llvm",
         "treat_warnings_as_errors=false",
         "clang_use_chrome_plugins=false"] :=
  (claim_C4 .linux true "/dl/clang").2.1 "/opt/llvm"

/-- Witness for C6 at a concrete scratch directory with both tools
present. -/
theorem claim_C6_witness :
    download_gn_ninja_binaries_run .linux "target/debug/gn_ninja_binaries"
        (fun fs => fs)
        [gn_tool_path .linux "target/debug/gn_ninja_binaries",
         ninja_tool_path .linux "target/debug/gn_ninja_binaries"] =
      some (false,
        [gn_tool_path .linux "target/debug/gn_ninja_binaries",
         ninja_tool_path .linux "target/debug/gn_ninja_binaries"]) :=
  (claim_C6 .linux "target/debug/gn_ninja_binaries" (fun fs => fs)
    (fun fs => fs)
    [gn_tool_path .linux "target/debug/gn_ninja_binaries",
     ninja_tool_path .linux "target/debug/gn_ninja_binaries"]).1
    (by decide) (by decide)

/-- Witness for C7 at a concrete world with the vendored tree absent. -/
theorem claim_C7_witness :
    build_v8_sim missingLibcxxWorld = ([], Except.error 1) ∧ (1 : Nat) ≠ 0 :=
  claim_C7 missingLibcxxWorld rfl

end RustyV8
